import Mathlib

/-!
Shallow embedding of the "Around" location-aware check-in service
(Go sources `main.go`, `user.go`): the credential/token subsystem,
the post-ingestion pipeline (blob store, document index, wide-column
store) and the geospatial query engine.  Machine floats of the source
are modelled as rationals (no claim depends on floating-point rounding);
each external backing store is modelled as explicit state threaded
through the handlers, with a Boolean availability flag standing for the
network failure modes the source reports through Go errors and panics.
-/

set_option autoImplicit false

namespace Around

/-- Geographic coordinate pair, mirroring `Location` in `main.go`
(`lat`/`lon` JSON fields, float64 in the source, modelled as `ℚ`). -/
structure Location where
  lat : ℚ
  lon : ℚ
  deriving DecidableEq

/-- A post record, mirroring `Post` in `main.go`:
`user`, `message`, `url` (media locator, filled after the blob upload)
and `location`. -/
structure Post where
  user : String
  message : String
  url : String
  location : Location
  deriving DecidableEq

/-- An account record, mirroring `User` in `user.go`. -/
structure User where
  username : String
  password : String
  age : Int
  gender : String
  deriving DecidableEq

/-- Character class of the signup username regexp `[a-z0-9_]`
(`usernamePattern` in `user.go`): ASCII lowercase letter, ASCII digit
or underscore. -/
def isUsernameChar (c : Char) : Bool :=
  c.isLower || c.isDigit || c == '_'

/-- The compiled regexp `^[a-z0-9_]+$` of `user.go`: at least one
character, and every character drawn from `[a-z0-9_]`. -/
def usernamePattern (s : String) : Bool :=
  !s.data.isEmpty && s.data.all isUsernameChar

/-- Numeric value of a digit string read left to right
(helper for the model of `strconv.ParseFloat`). -/
def natOfDigits (cs : List Char) : Nat :=
  cs.foldl (fun acc c => acc * 10 + (c.toNat - 48)) 0

/-- Unsigned part of the decimal grammar accepted by the model of
`strconv.ParseFloat`: digits, optionally followed by a dot and more
digits, with at least one digit overall. -/
def parseUnsigned (cs : List Char) : Option ℚ :=
  let ip := cs.takeWhile Char.isDigit
  let rest := cs.dropWhile Char.isDigit
  match rest with
  | [] => if ip.isEmpty then none else some ((natOfDigits ip : ℚ))
  | '.' :: frac =>
      if (ip.isEmpty && frac.isEmpty) || !frac.all Char.isDigit then none
      else some ((natOfDigits ip : ℚ) + (natOfDigits frac : ℚ) / (10 ^ frac.length : ℚ))
  | _ => none

/-- Model of the Go standard library `strconv.ParseFloat` as used by the
handlers, restricted to plain decimal notation: `none` on any string the
grammar rejects (in particular the empty string of a missing form field),
`some q` on an optionally signed decimal numeral.  The handlers discard
the error return, so a `none` becomes the value `0`. -/
def parseFloat (s : String) : Option ℚ :=
  match s.data with
  | [] => none
  | '+' :: cs => parseUnsigned cs
  | '-' :: cs => (parseUnsigned cs).map (fun q => -q)
  | cs => parseUnsigned cs

/-- State of the Elasticsearch index `around`: the user documents
(type `user`, id = username) and the post documents (type `post`,
id = uuid), both living in the same index as in the source. -/
structure ESState where
  users : List User
  posts : List (String × Post)
  deriving DecidableEq

/-- The term query on field `username` issued by both `checkUser` and
`addUser` in `user.go`: every user document whose `username` field
equals the searched value (post documents carry no `username` field and
can never match). -/
def termQueryUsername (st : ESState) (username : String) : List User :=
  st.users.filter (fun u => u.username == username)

/-- `checkUser` of `user.go`: `false` when the store is unreachable
(client creation or query error), otherwise compare the first hit of the
term query byte-for-byte against the supplied username and password;
`false` when there is no hit. -/
def checkUser (esOk : Bool) (st : ESState) (username password : String) : Bool :=
  if !esOk then false
  else
    match termQueryUsername st username with
    | [] => false
    | u :: _ => u.password == password && u.username == username

/-- Which of `addUser`'s code paths in `user.go` was taken: the
successful insert, the duplicate-username early return, or a
backing-store error (client creation, query, or index call failed);
the handler reports the last two identically, the source only logs
them differently. -/
inductive AddResult where
  | added
  | duplicate
  | storeError
  deriving DecidableEq

/-- `addUser` of `user.go`: existence check via the term query
(fail when `TotalHits() > 0`), then an index call with id = username.
The check and the write are two separate store calls with no locking. -/
def addUser (esOk : Bool) (st : ESState) (u : User) : AddResult × ESState :=
  if !esOk then (.storeError, st)
  else if (termQueryUsername st u.username).length > 0 then (.duplicate, st)
  else (.added, { st with users := st.users ++ [u] })

/-- HTTP-level outcome as observed by the caller: a 200 body or an
`http.Error` status and message. -/
inductive HttpResponse where
  | ok (body : String)
  | error (status : Nat) (msg : String)
  deriving DecidableEq

/-- Result of one `signupHandler` run (`user.go`): the response written,
the resulting store state, and whether any credential-store access was
attempted during the run. -/
structure SignupOutcome where
  response : HttpResponse
  state : ESState
  storeAccessed : Bool
  deriving DecidableEq

/-- `signupHandler` of `user.go` after the JSON body has been decoded:
the validation gate `u.Username != "" && u.Password != "" &&
usernamePattern(u.Username)`, then `addUser`; a failed gate writes
`Empty password or username` with status 500 and never touches the
store. -/
def signupHandler (esOk : Bool) (st : ESState) (u : User) : SignupOutcome :=
  if u.username != "" && u.password != "" && usernamePattern u.username then
    match addUser esOk st u with
    | (.added, st') => ⟨.ok "User added successfully", st', true⟩
    | (.duplicate, st') => ⟨.error 500 "Failed to add a new user", st', true⟩
    | (.storeError, st') => ⟨.error 500 "Failed to add a new user", st', true⟩
  else
    ⟨.error 500 "Empty password or username", st, false⟩

/-- A minted bearer token: subject claim `username` and expiry claim
`exp` in Unix seconds, as set by `loginHandler` in `user.go`. -/
structure Token where
  username : String
  exp : Int
  deriving DecidableEq

/-- Caller-observable outcome of one `loginHandler` run: the signed
token written to the response, or the `http.Error` status and message. -/
inductive LoginResult where
  | token (t : Token)
  | denied (status : Nat) (msg : String)
  deriving DecidableEq

/-- `loginHandler` of `user.go` after the JSON body has been decoded:
on `checkUser` success, mint a token with claims `username = u.Username`
and `exp = now + 24h`; otherwise `http.Error` 403
`Invalid password or username`, whatever the cause of the failure. -/
def loginHandler (esOk : Bool) (st : ESState) (now : Int) (u : User) : LoginResult :=
  if checkUser esOk st u.username u.password then
    .token { username := u.username, exp := now + 24 * 3600 }
  else
    .denied 403 "Invalid password or username"

/-- Modelled from the spec: `authorize` — the JWT middleware configured
in `main.go` (the validation itself lives in the `go-jwt-middleware` /
`jwt-go` libraries, not under `src/`).  It verifies signature and the
`exp` claim (a token is accepted while `now ≤ exp`) and exposes the
subject claim; signature forgery is outside the model, token values are
structurally authentic. -/
def authorize (t : Token) (now : Int) : Option String :=
  if now ≤ t.exp then some t.username else none

/-- Failure switches and returned media link of one `saveToGCS` run
(`main.go`): client creation, bucket attribute probe, `io.Copy`, writer
close, ACL set and object attribute fetch can each fail independently. -/
structure GCSEnv where
  clientOk : Bool
  bucketOk : Bool
  copyOk : Bool
  closeOk : Bool
  aclOk : Bool
  attrsOk : Bool
  mediaLink : String
  deriving DecidableEq

/-- `saveToGCS` of `main.go`: create a client, probe the bucket, copy
the stream into the object, close the writer, set the all-users-reader
ACL, fetch the object attributes; any error aborts with `none`, success
returns the object's `MediaLink`. -/
def saveToGCS (g : GCSEnv) : Option String :=
  if !g.clientOk then none
  else if !g.bucketOk then none
  else if !g.copyOk then none
  else if !g.closeOk then none
  else if !g.aclOk then none
  else if !g.attrsOk then none
  else some g.mediaLink

/-- `saveToES` of `main.go`: index the post document under the given id
with `Refresh(true)` (immediately visible), replacing any document with
that id; `none` models the panic on a client or index error. -/
def saveToES (esOk : Bool) (st : ESState) (p : Post) (id : String) : Option ESState :=
  if !esOk then none
  else some { st with posts := (id, p) :: st.posts.filter (fun e => e.1 != id) }

/-- One BigTable row of the `post` table: cells written by
`saveToBigTable` (`main.go`) in families `post` (`user`, `message`) and
`location` (`lat`, `lon`). -/
structure BTRow where
  user : String
  message : String
  lat : ℚ
  lon : ℚ
  deriving DecidableEq

/-- State of the wide-column store: rows keyed by post id. -/
abbrev BTState := List (String × BTRow)

/-- `saveToBigTable` of `main.go`: apply one mutation writing the four
cells under row key `id`; `none` models the panic on a client or apply
error. -/
def saveToBigTable (btOk : Bool) (bt : BTState) (p : Post) (id : String) : Option BTState :=
  if !btOk then none
  else some ((id, { user := p.user, message := p.message,
                    lat := p.location.lat, lon := p.location.lon }) :: bt)

/-- `r.FormValue` over the parsed multipart form: the first value bound
to the key, or the empty string when the field is absent. -/
def formValue (form : List (String × String)) (key : String) : String :=
  match form.find? (fun e => e.1 == key) with
  | some e => e.2
  | none => ""

/-- Modelled from the spec: `uuid.New()` (the `pborman/uuid` library,
not under `src/`) mints a fresh, globally-unique, non-empty identifier;
modelled as an injective function of a mint counter. -/
def uuidNew (n : Nat) : String :=
  String.mk (List.replicate (n + 1) 'u')

/-- Caller-observable outcome of one `handlerPost` run: the fully
constructed post on success, the 500 `GCS is not setup` abort (missing
`image` form file, or any `saveToGCS` error), or the panic of one of
the two fan-out writes. -/
inductive IngestResult where
  | ok (p : Post) (id : String)
  | gcsNotSetup
  | esWriteFailed
  | btWriteFailed (p : Post) (id : String)
  deriving DecidableEq

/-- Result of one `handlerPost` run together with the final state of
the two fan-out stores. -/
structure IngestOutcome where
  result : IngestResult
  es : ESState
  bt : BTState
  deriving DecidableEq

/-- `handlerPost` of `main.go` after the JWT middleware has verified the
bearer token: take the author from the token's `username` claim, parse
`lat`/`lon` with errors discarded (so malformed fields become `0`),
build the post, require the `image` form file (its absence aborts with
the 500 `GCS is not setup` path), upload to GCS, stamp the returned
`MediaLink` on the post, then write to Elasticsearch and BigTable in
that order, each write panicking on failure with no rollback of the
other. -/
def handlerPost (username : String) (form : List (String × String)) (image : Option Unit)
    (id : String) (g : GCSEnv) (esOk btOk : Bool) (es : ESState) (bt : BTState) :
    IngestOutcome :=
  let lat := (parseFloat (formValue form "lat")).getD 0
  let lon := (parseFloat (formValue form "lon")).getD 0
  let p : Post := { user := username, message := formValue form "message", url := "",
                    location := { lat := lat, lon := lon } }
  match image with
  | none => ⟨.gcsNotSetup, es, bt⟩
  | some _ =>
    match saveToGCS g with
    | none => ⟨.gcsNotSetup, es, bt⟩
    | some link =>
      let p := { p with url := link }
      match saveToES esOk es p id with
      | none => ⟨.esWriteFailed, es, bt⟩
      | some es' =>
        match saveToBigTable btOk bt p id with
        | none => ⟨.btWriteFailed p id, es', bt⟩
        | some bt' => ⟨.ok p id, es', bt'⟩

/-- Modelled from the spec: the Document Index's point-radius predicate
(`queryByRadius` of §6; the distance computation is performed inside
Elasticsearch, not under `src/`).  A document matches when its
equirectangular degree distance to the centre, scaled by 111 km per
degree, is within the radius; compared on squares to stay rational.
A post at the query centre is at distance zero and matches every
radius. -/
def geoDistanceMatch (clat clon radiusKm : ℚ) (loc : Location) : Bool :=
  decide (((loc.lat - clat) ^ 2 + (loc.lon - clon) ^ 2) * 111 ^ 2 ≤ radiusKm ^ 2)

/-- The hits of the geo-distance query over the post documents, in store
order, deserialized to `Post` as `handlerSearch` does via reflection. -/
def queryByRadius (st : ESState) (clat clon radiusKm : ℚ) : List Post :=
  (st.posts.filter (fun e => geoDistanceMatch clat clon radiusKm e.2.location)).map
    (fun e => e.2)

/-- Caller-observable outcome of one `handlerSearch` run: the JSON list
of hits, or the panic on a client/search error (including a range
parameter Elasticsearch cannot parse). -/
inductive SearchResult where
  | ok (ps : List Post)
  | queryFailed
  deriving DecidableEq

/-- `handlerSearch` of `main.go` after the JWT middleware: parse
`lat`/`lon` with errors discarded (defaulting to `0`), default the
range to 200 km when the `range` parameter is absent (otherwise the
parameter with `km` appended), run the geo-distance query and return
the deserialized hits. -/
def handlerSearch (latStr lonStr rangeStr : String) (esOk : Bool) (st : ESState) :
    SearchResult :=
  let lat := (parseFloat latStr).getD 0
  let lon := (parseFloat lonStr).getD 0
  let radius : Option ℚ := if rangeStr == "" then some 200 else parseFloat rangeStr
  if !esOk then .queryFailed
  else
    match radius with
    | none => .queryFailed
    | some r => .ok (queryByRadius st lat lon r)

/-! ### Helper lemmas -/

/-- A string accepted by the username pattern is non-empty. -/
theorem usernamePattern_ne_empty (s : String) (h : usernamePattern s = true) : s ≠ "" := by
  intro hs
  subst hs
  simp [usernamePattern] at h

/-- After inserting a user whose username had no hits, the term query
returns exactly that user. -/
theorem termQueryUsername_after_insert (st : ESState) (u : User)
    (hfresh : termQueryUsername st u.username = []) :
    termQueryUsername { st with users := st.users ++ [u] } u.username = [u] := by
  simp only [termQueryUsername] at hfresh ⊢
  simp [List.filter_append, hfresh]

/-- A fresh valid signup takes `addUser`'s successful path and appends
the record. -/
theorem addUser_fresh (st : ESState) (u : User)
    (hfresh : termQueryUsername st u.username = []) :
    addUser true st u = (.added, { st with users := st.users ++ [u] }) := by
  simp [addUser, hfresh]

/-- A fresh valid signup succeeds with the source's success body and the
inserted record. -/
theorem signupHandler_fresh (st : ESState) (u : User)
    (hpat : usernamePattern u.username = true) (hpw : u.password ≠ "")
    (hfresh : termQueryUsername st u.username = []) :
    signupHandler true st u =
      ⟨.ok "User added successfully", { st with users := st.users ++ [u] }, true⟩ := by
  have hne : u.username ≠ "" := usernamePattern_ne_empty u.username hpat
  simp [signupHandler, hne, hpw, hpat, addUser_fresh st u hfresh]

/-! ### Claim theorems -/

/-- C3: for every username matching `^[a-z0-9_]+$` with a non-empty
password (and no existing record for that username, the store
available), signup followed immediately by login with the same
credentials succeeds and the minted token's subject claim equals the
username. -/
theorem signup_then_login_subject
    (st : ESState) (u : User) (now : Int)
    (hpat : usernamePattern u.username = true)
    (hpw : u.password ≠ "")
    (hfresh : termQueryUsername st u.username = []) :
    (signupHandler true st u).response = .ok "User added successfully" ∧
    loginHandler true (signupHandler true st u).state now u =
      .token { username := u.username, exp := now + 24 * 3600 } := by
  rw [signupHandler_fresh st u hpat hpw hfresh]
  refine ⟨rfl, ?_⟩
  simp [loginHandler, checkUser, termQueryUsername_after_insert st u hfresh]

/-- Witness for C3 at a concrete fresh store and credentials. -/
theorem signup_then_login_subject_witness :
    (signupHandler true ⟨[], []⟩ ⟨"bob_1", "pw", 0, "m"⟩).response = .ok "User added successfully" ∧
    loginHandler true (signupHandler true ⟨[], []⟩ ⟨"bob_1", "pw", 0, "m"⟩).state 0
        ⟨"bob_1", "pw", 0, "m"⟩ =
      .token { username := "bob_1", exp := 0 + 24 * 3600 } :=
  signup_then_login_subject ⟨[], []⟩ ⟨"bob_1", "pw", 0, "m"⟩ 0
    (by simp [usernamePattern, isUsernameChar]) (by simp) (by simp [termQueryUsername])

/-- C4: with the store available throughout, two sequential signups with
the same username succeed the first time and fail the second time on
`addUser`'s duplicate path, the second call leaving the store
unchanged. -/
theorem signup_twice_duplicate
    (st : ESState) (u : User)
    (hpat : usernamePattern u.username = true)
    (hpw : u.password ≠ "")
    (hfresh : termQueryUsername st u.username = []) :
    (signupHandler true st u).response = .ok "User added successfully" ∧
    addUser true (signupHandler true st u).state u =
      (.duplicate, (signupHandler true st u).state) ∧
    (signupHandler true (signupHandler true st u).state u).response =
      .error 500 "Failed to add a new user" ∧
    (signupHandler true (signupHandler true st u).state u).state =
      (signupHandler true st u).state := by
  have hne : u.username ≠ "" := usernamePattern_ne_empty u.username hpat
  rw [signupHandler_fresh st u hpat hpw hfresh]
  have hdup : addUser true { st with users := st.users ++ [u] } u =
      (.duplicate, { st with users := st.users ++ [u] }) := by
    simp [addUser, termQueryUsername_after_insert st u hfresh]
  refine ⟨rfl, hdup, ?_, ?_⟩ <;> simp [signupHandler, hne, hpw, hpat, hdup]

/-- Witness for C4 at a concrete fresh store and credentials. -/
theorem signup_twice_duplicate_witness :
    (signupHandler true ⟨[], []⟩ ⟨"dana", "pw", 0, "f"⟩).response = .ok "User added successfully" ∧
    addUser true (signupHandler true ⟨[], []⟩ ⟨"dana", "pw", 0, "f"⟩).state ⟨"dana", "pw", 0, "f"⟩ =
      (.duplicate, (signupHandler true ⟨[], []⟩ ⟨"dana", "pw", 0, "f"⟩).state) ∧
    (signupHandler true (signupHandler true ⟨[], []⟩ ⟨"dana", "pw", 0, "f"⟩).state
        ⟨"dana", "pw", 0, "f"⟩).response = .error 500 "Failed to add a new user" ∧
    (signupHandler true (signupHandler true ⟨[], []⟩ ⟨"dana", "pw", 0, "f"⟩).state
        ⟨"dana", "pw", 0, "f"⟩).state = (signupHandler true ⟨[], []⟩ ⟨"dana", "pw", 0, "f"⟩).state :=
  signup_twice_duplicate ⟨[], []⟩ ⟨"dana", "pw", 0, "f"⟩
    (by simp [usernamePattern, isUsernameChar]) (by simp) (by simp [termQueryUsername])

/-- C5: login with a correct username but wrong password, login with a
username that has no credential record, and login while the backing
store is down all produce the same caller-observable outcome, the 403
`Invalid password or username` denial — no username enumeration. -/
theorem login_uniform_denial
    (stA : ESState) (uA stored : User) (rest : List User) (nowA : Int)
    (hA : termQueryUsername stA uA.username = stored :: rest)
    (hApw : stored.password ≠ uA.password)
    (stB : ESState) (uB : User) (nowB : Int)
    (hB : termQueryUsername stB uB.username = [])
    (stC : ESState) (uC : User) (nowC : Int) :
    loginHandler true stA nowA uA = .denied 403 "Invalid password or username" ∧
    loginHandler true stB nowB uB = .denied 403 "Invalid password or username" ∧
    loginHandler false stC nowC uC = .denied 403 "Invalid password or username" := by
  refine ⟨?_, ?_, ?_⟩
  · simp [loginHandler, checkUser, hA, hApw]
  · simp [loginHandler, checkUser, hB]
  · simp [loginHandler, checkUser]

/-- Witness for C5: a store holding `eve`, queried with a wrong
password, with an absent username, and while unavailable. -/
theorem login_uniform_denial_witness :
    loginHandler true ⟨[⟨"eve", "right", 0, "f"⟩], []⟩ 0 ⟨"eve", "wrong", 0, "f"⟩ =
      .denied 403 "Invalid password or username" ∧
    loginHandler true ⟨[⟨"eve", "right", 0, "f"⟩], []⟩ 0 ⟨"mallory", "right", 0, "f"⟩ =
      .denied 403 "Invalid password or username" ∧
    loginHandler false ⟨[⟨"eve", "right", 0, "f"⟩], []⟩ 0 ⟨"eve", "right", 0, "f"⟩ =
      .denied 403 "Invalid password or username" :=
  login_uniform_denial ⟨[⟨"eve", "right", 0, "f"⟩], []⟩ ⟨"eve", "wrong", 0, "f"⟩
    ⟨"eve", "right", 0, "f"⟩ [] 0 (by simp [termQueryUsername]) (by simp)
    ⟨[⟨"eve", "right", 0, "f"⟩], []⟩ ⟨"mallory", "right", 0, "f"⟩ 0
    (by simp [termQueryUsername]) ⟨[⟨"eve", "right", 0, "f"⟩], []⟩ ⟨"eve", "right", 0, "f"⟩ 0

/-- C6: every token minted by a successful login at time `now` carries
expiry `now + 24h`, and `authorize` accepts it (yielding the subject)
at any instant strictly before the expiry and rejects it at any instant
strictly after. -/
theorem token_expiry_window
    (esOk : Bool) (st : ESState) (now : Int) (u : User) (t : Token)
    (h : loginHandler esOk st now u = .token t) :
    t.exp = now + 24 * 3600 ∧
    (∀ i : Int, i < now + 24 * 3600 → authorize t i = some u.username) ∧
    (∀ i : Int, now + 24 * 3600 < i → authorize t i = none) := by
  unfold loginHandler at h
  split at h
  · cases h
    refine ⟨rfl, ?_, ?_⟩
    · intro i hi
      simp only [authorize]
      rw [if_pos (by omega)]
    · intro i hi
      simp only [authorize]
      rw [if_neg (by omega)]
  · simp at h

/-- Witness for C6: a token minted at time 0 is accepted at `T+23h59m`
(86340 s) and rejected at `T+24h01m` (86460 s). -/
theorem token_expiry_window_witness :
    authorize ⟨"alice", 0 + 24 * 3600⟩ 86340 = some "alice" ∧
    authorize ⟨"alice", 0 + 24 * 3600⟩ 86460 = none := by
  have h := token_expiry_window true ⟨[⟨"alice", "pw", 0, "f"⟩], []⟩ 0 ⟨"alice", "pw", 0, "f"⟩
      ⟨"alice", 0 + 24 * 3600⟩ (by simp [loginHandler, checkUser, termQueryUsername])
  exact ⟨h.2.1 86340 (by omega), h.2.2 86460 (by omega)⟩

/-- C9: signup rejects a request with an empty username, an empty
password, or a username outside `^[a-z0-9_]+$`, reporting the failure
and never touching the credential store; a request passing all three
checks always reaches the store. -/
theorem signup_validation_gate (esOk : Bool) (st : ESState) (u : User) :
    ((u.username = "" ∨ u.password = "" ∨ usernamePattern u.username = false) →
      signupHandler esOk st u = ⟨.error 500 "Empty password or username", st, false⟩) ∧
    (u.username ≠ "" → u.password ≠ "" → usernamePattern u.username = true →
      (signupHandler esOk st u).storeAccessed = true) := by
  constructor
  · intro hbad
    have hc : (u.username != "" && u.password != "" && usernamePattern u.username) = false := by
      rcases hbad with h | h | h <;> simp [h]
    simp [signupHandler, hc]
  · intro h1 h2 h3
    rcases hr : addUser esOk st u with ⟨r, st'⟩
    rcases r <;> simp [signupHandler, h1, h2, h3, hr]

/-- Witness for C9: an empty-username request is rejected with no store
access, a valid request reaches the store. -/
theorem signup_validation_gate_witness :
    signupHandler true ⟨[], []⟩ ⟨"", "pw", 0, "f"⟩ =
      ⟨.error 500 "Empty password or username", ⟨[], []⟩, false⟩ ∧
    (signupHandler true ⟨[], []⟩ ⟨"carol", "pw", 0, "f"⟩).storeAccessed = true :=
  ⟨(signup_validation_gate true ⟨[], []⟩ ⟨"", "pw", 0, "f"⟩).1 (Or.inl rfl),
   (signup_validation_gate true ⟨[], []⟩ ⟨"carol", "pw", 0, "f"⟩).2 (by simp) (by simp)
     (by simp [usernamePattern, isUsernameChar])⟩

/-- A `saveToGCS` failure (missing image handled separately) short-circuits
`handlerPost` to the `GCS is not setup` abort, leaving both fan-out
stores untouched. -/
theorem handlerPost_gcsFail (username : String) (form : List (String × String)) (id : String)
    (g : GCSEnv) (esOk btOk : Bool) (es : ESState) (bt : BTState)
    (hg : saveToGCS g = none) :
    handlerPost username form (some ()) id g esOk btOk es bt = ⟨.gcsNotSetup, es, bt⟩ := by
  simp [handlerPost, hg]

/-- Equation for the all-stores-available success path of `handlerPost`. -/
theorem handlerPost_success_eq (username : String) (form : List (String × String)) (id : String)
    (g : GCSEnv) (es : ESState) (bt : BTState) (link : String)
    (hg : saveToGCS g = some link) :
    handlerPost username form (some ()) id g true true es bt =
      ⟨.ok { user := username, message := formValue form "message", url := link,
             location := { lat := (parseFloat (formValue form "lat")).getD 0,
                           lon := (parseFloat (formValue form "lon")).getD 0 } } id,
       { es with posts := (id, { user := username, message := formValue form "message", url := link,
                                 location := { lat := (parseFloat (formValue form "lat")).getD 0,
                                               lon := (parseFloat (formValue form "lon")).getD 0 } })
                   :: es.posts.filter (fun e => e.1 != id) },
       (id, { user := username, message := formValue form "message",
              lat := (parseFloat (formValue form "lat")).getD 0,
              lon := (parseFloat (formValue form "lon")).getD 0 }) :: bt⟩ := by
  simp [handlerPost, hg, saveToES, saveToBigTable]

/-- Equation for the index-up, wide-column-down path of `handlerPost`:
the run aborts on the BigTable panic, after the index write landed and
with the wide-column store untouched. -/
theorem handlerPost_btFail_eq (username : String) (form : List (String × String)) (id : String)
    (g : GCSEnv) (es : ESState) (bt : BTState) (link : String)
    (hg : saveToGCS g = some link) :
    handlerPost username form (some ()) id g true false es bt =
      ⟨.btWriteFailed { user := username, message := formValue form "message", url := link,
                        location := { lat := (parseFloat (formValue form "lat")).getD 0,
                                      lon := (parseFloat (formValue form "lon")).getD 0 } } id,
       { es with posts := (id, { user := username, message := formValue form "message", url := link,
                                 location := { lat := (parseFloat (formValue form "lat")).getD 0,
                                               lon := (parseFloat (formValue form "lon")).getD 0 } })
                   :: es.posts.filter (fun e => e.1 != id) },
       bt⟩ := by
  simp [handlerPost, hg, saveToES, saveToBigTable]

/-- Inversion of a successful `handlerPost` run: the id is the freshly
minted one, the author is the token subject, and both stores received
the record under that id. -/
theorem handlerPost_ok_inv
    (username : String) (form : List (String × String)) (image : Option Unit) (id : String)
    (g : GCSEnv) (esOk btOk : Bool) (es : ESState) (bt : BTState) (p : Post) (rid : String)
    (h : (handlerPost username form image id g esOk btOk es bt).result = .ok p rid) :
    rid = id ∧ p.user = username ∧
    (id, p) ∈ (handlerPost username form image id g esOk btOk es bt).es.posts ∧
    (id, { user := username, message := p.message, lat := p.location.lat,
           lon := p.location.lon }) ∈ (handlerPost username form image id g esOk btOk es bt).bt := by
  rcases image with _ | _
  · simp [handlerPost] at h
  · rcases hg : saveToGCS g with _ | link
    · simp [handlerPost, hg] at h
    · rcases esOk with _ | _
      · simp [handlerPost, hg, saveToES] at h
      · rcases btOk with _ | _
        · simp [handlerPost, hg, saveToES, saveToBigTable] at h
        · simp only [handlerPost, hg, saveToES, saveToBigTable] at h ⊢
          simp at h ⊢
          obtain ⟨hp, hrid⟩ := h
          subst hrid
          refine ⟨rfl, ?_⟩
          rw [← hp]
          simp

/-- With the index reachable and a parsable range, `handlerSearch`
returns exactly the hits of the geo-distance query at the parsed
centre. -/
theorem handlerSearch_ok (latStr lonStr rangeStr : String) (st : ESState) (lat lon r : ℚ)
    (hlat : (parseFloat latStr).getD 0 = lat) (hlon : (parseFloat lonStr).getD 0 = lon)
    (hr : (if rangeStr == "" then some 200 else parseFloat rangeStr) = some r) :
    handlerSearch latStr lonStr rangeStr true st = .ok (queryByRadius st lat lon r) := by
  have hr' : (if rangeStr = "" then some 200 else parseFloat rangeStr) = some r := by
    simpa using hr
  simp [handlerSearch, hlat, hlon, hr']

/-- The freshly minted identifier is never the empty string. -/
theorem uuidNew_ne_empty (n : Nat) : uuidNew n ≠ "" := by
  intro h
  have hd := congrArg String.data h
  simp [uuidNew] at hd

/-- Distinct mint counters yield distinct identifiers. -/
theorem uuidNew_injective (m n : Nat) (h : uuidNew m = uuidNew n) : m = n := by
  have hd := congrArg (fun s => s.data.length) h
  simpa [uuidNew] using hd

/-- C1: when the submission carries a media stream and any step of the
blob-store interaction fails (upload or ACL), the whole submission
aborts on the `GCS is not setup` path and no record for the attempted
id reaches the Document Index or the Wide-Column Store. -/
theorem blob_failure_aborts_submission
    (username : String) (form : List (String × String)) (id : String) (g : GCSEnv)
    (esOk btOk : Bool) (es : ESState) (bt : BTState)
    (hg : saveToGCS g = none)
    (hes : ∀ p : Post, (id, p) ∉ es.posts) (hbt : ∀ row : BTRow, (id, row) ∉ bt) :
    (handlerPost username form (some ()) id g esOk btOk es bt).result = .gcsNotSetup ∧
    (handlerPost username form (some ()) id g esOk btOk es bt).es = es ∧
    (handlerPost username form (some ()) id g esOk btOk es bt).bt = bt ∧
    (∀ p : Post, (id, p) ∉ (handlerPost username form (some ()) id g esOk btOk es bt).es.posts) ∧
    (∀ row : BTRow, (id, row) ∉ (handlerPost username form (some ()) id g esOk btOk es bt).bt) := by
  rw [handlerPost_gcsFail username form id g esOk btOk es bt hg]
  exact ⟨rfl, rfl, rfl, hes, hbt⟩

/-- Witness for C1: a rejected ACL step aborts the submission and the
stores stay empty. -/
theorem blob_failure_aborts_submission_witness :
    (handlerPost "alice" [("message", "hello")] (some ()) "id0"
        ⟨true, true, true, true, false, true, "L"⟩ true true ⟨[], []⟩ []).result = .gcsNotSetup ∧
    (handlerPost "alice" [("message", "hello")] (some ()) "id0"
        ⟨true, true, true, true, false, true, "L"⟩ true true ⟨[], []⟩ []).es = ⟨[], []⟩ ∧
    (handlerPost "alice" [("message", "hello")] (some ()) "id0"
        ⟨true, true, true, true, false, true, "L"⟩ true true ⟨[], []⟩ []).bt = [] ∧
    (∀ p : Post, ("id0", p) ∉ (handlerPost "alice" [("message", "hello")] (some ()) "id0"
        ⟨true, true, true, true, false, true, "L"⟩ true true ⟨[], []⟩ []).es.posts) ∧
    (∀ row : BTRow, ("id0", row) ∉ (handlerPost "alice" [("message", "hello")] (some ()) "id0"
        ⟨true, true, true, true, false, true, "L"⟩ true true ⟨[], []⟩ []).bt) :=
  blob_failure_aborts_submission "alice" [("message", "hello")] "id0"
    ⟨true, true, true, true, false, true, "L"⟩ true true ⟨[], []⟩ []
    (by simp [saveToGCS]) (by simp) (by simp)

/-- C2 counterexample: a submission with message `hello` at
`(37.0, -122.0)` and **no** media stream does not succeed — the handler
aborts on the missing `image` form file (its 500 `GCS is not setup`
path), even with every store healthy. -/
theorem submit_no_media_rejected :
    (handlerPost "alice" [("message", "hello"), ("lat", "37.0"), ("lon", "-122.0")] none "id0"
        ⟨true, true, true, true, true, true, "https://storage.example/post-images/id0"⟩ true true
        ⟨[], []⟩ []).result = .gcsNotSetup := rfl

/-- C2 amended: a no-media submission is rejected on the blob-store
abort path; a submission with a media stream whose upload succeeds
produces a Post whose mediaUrl is the blob store's returned locator and
whose id is non-empty and unique, and a subsequent search centred at
`(37.0, -122.0)` with radius 1 km returns a sequence containing that
post. -/
theorem submit_media_then_search_found
    (n : Nat) (username link : String) (g : GCSEnv) (es : ESState) (bt : BTState)
    (hg : saveToGCS g = some link) :
    (handlerPost username [("message", "hello"), ("lat", "37.0"), ("lon", "-122.0")] none
        (uuidNew n) g true true es bt).result = .gcsNotSetup ∧
    uuidNew n ≠ "" ∧
    (∀ m : Nat, uuidNew m = uuidNew n → m = n) ∧
    (∃ p : Post,
      (handlerPost username [("message", "hello"), ("lat", "37.0"), ("lon", "-122.0")] (some ())
          (uuidNew n) g true true es bt).result = .ok p (uuidNew n) ∧
      p.user = username ∧ p.message = "hello" ∧ p.url = link ∧
      p.location = ⟨37, -122⟩ ∧
      (∃ ps : List Post,
        handlerSearch "37.0" "-122.0" "1" true
            (handlerPost username [("message", "hello"), ("lat", "37.0"), ("lon", "-122.0")]
              (some ()) (uuidNew n) g true true es bt).es = .ok ps ∧ p ∈ ps)) := by
  refine ⟨by simp [handlerPost], uuidNew_ne_empty n, fun m => uuidNew_injective m n, ?_⟩
  have heq := handlerPost_success_eq username
    [("message", "hello"), ("lat", "37.0"), ("lon", "-122.0")] (uuidNew n) g es bt link hg
  have hmsg : formValue [("message", "hello"), ("lat", "37.0"), ("lon", "-122.0")] "message" =
      "hello" := by simp [formValue]
  have hlat : (parseFloat (formValue [("message", "hello"), ("lat", "37.0"), ("lon", "-122.0")]
      "lat")).getD 0 = (37 : ℚ) := by
    simp [formValue, parseFloat, parseUnsigned, natOfDigits]
  have hlon : (parseFloat (formValue [("message", "hello"), ("lat", "37.0"), ("lon", "-122.0")]
      "lon")).getD 0 = (-122 : ℚ) := by
    simp [formValue, parseFloat, parseUnsigned, natOfDigits]
  rw [hmsg, hlat, hlon] at heq
  rw [heq]
  refine ⟨{ user := username, message := "hello", url := link, location := ⟨37, -122⟩ },
    rfl, rfl, rfl, rfl, rfl, ?_⟩
  have h37 : (parseFloat "37.0").getD 0 = (37 : ℚ) := by
    simp [parseFloat, parseUnsigned, natOfDigits]
  have h122 : (parseFloat "-122.0").getD 0 = (-(122 : ℚ)) := by
    simp [parseFloat, parseUnsigned, natOfDigits]
  have h1 : (if ("1" : String) == "" then some 200 else parseFloat "1") = some (1 : ℚ) := by
    simp [parseFloat, parseUnsigned, natOfDigits]
  refine ⟨_, handlerSearch_ok "37.0" "-122.0" "1" _ 37 (-122) 1 h37 h122 h1, ?_⟩
  have hmatch : geoDistanceMatch 37 (-122) 1 ⟨37, -122⟩ = true := by
    simp [geoDistanceMatch]
  simp [queryByRadius, List.filter_cons, hmatch]

/-- Witness for C2 (amended) at a concrete store environment. -/
theorem submit_media_then_search_found_witness :
    (handlerPost "alice" [("message", "hello"), ("lat", "37.0"), ("lon", "-122.0")] none
        (uuidNew 0) ⟨true, true, true, true, true, true, "L"⟩ true true ⟨[], []⟩ []).result =
      .gcsNotSetup ∧
    uuidNew 0 ≠ "" ∧
    (∀ m : Nat, uuidNew m = uuidNew 0 → m = 0) ∧
    (∃ p : Post,
      (handlerPost "alice" [("message", "hello"), ("lat", "37.0"), ("lon", "-122.0")] (some ())
          (uuidNew 0) ⟨true, true, true, true, true, true, "L"⟩ true true ⟨[], []⟩ []).result =
        .ok p (uuidNew 0) ∧
      p.user = "alice" ∧ p.message = "hello" ∧ p.url = "L" ∧
      p.location = ⟨37, -122⟩ ∧
      (∃ ps : List Post,
        handlerSearch "37.0" "-122.0" "1" true
            (handlerPost "alice" [("message", "hello"), ("lat", "37.0"), ("lon", "-122.0")]
              (some ()) (uuidNew 0) ⟨true, true, true, true, true, true, "L"⟩ true true
              ⟨[], []⟩ []).es = .ok ps ∧ p ∈ ps)) :=
  submit_media_then_search_found 0 "alice" "L" ⟨true, true, true, true, true, true, "L"⟩
    ⟨[], []⟩ [] (by simp [saveToGCS])

/-- C7: a `lat`/`lon` form or query field that fails numeric parsing
silently becomes `0`: a submission (with its media step succeeding) is
recorded at coordinate `(0, 0)` rather than rejected, and a search
executes the query centred at `(0, 0)` and returns whatever the store
yields. -/
theorem malformed_coords_default_origin
    (latStr lonStr : String) (hlat : parseFloat latStr = none) (hlon : parseFloat lonStr = none)
    (username msg id link : String) (g : GCSEnv) (hg : saveToGCS g = some link)
    (es : ESState) (bt : BTState) :
    (∃ es' : ESState, ∃ bt' : BTState,
      handlerPost username [("message", msg), ("lat", latStr), ("lon", lonStr)] (some ()) id g
          true true es bt =
        ⟨.ok { user := username, message := msg, url := link,
               location := { lat := 0, lon := 0 } } id, es', bt'⟩) ∧
    handlerSearch latStr lonStr "" true es = .ok (queryByRadius es 0 0 200) := by
  constructor
  · have heq := handlerPost_success_eq username
      [("message", msg), ("lat", latStr), ("lon", lonStr)] id g es bt link hg
    have hmsg : formValue [("message", msg), ("lat", latStr), ("lon", lonStr)] "message" =
        msg := by simp [formValue]
    have hla : (parseFloat (formValue [("message", msg), ("lat", latStr), ("lon", lonStr)]
        "lat")).getD 0 = (0 : ℚ) := by simp [formValue, hlat]
    have hlo : (parseFloat (formValue [("message", msg), ("lat", latStr), ("lon", lonStr)]
        "lon")).getD 0 = (0 : ℚ) := by simp [formValue, hlon]
    rw [hmsg, hla, hlo] at heq
    exact ⟨_, _, heq⟩
  · simp [handlerSearch, hlat, hlon]

/-- Witness for C7: the non-numeric field `abc` and the empty (missing)
field both default the centre to the origin. -/
theorem malformed_coords_default_origin_witness :
    (∃ es' : ESState, ∃ bt' : BTState,
      handlerPost "alice" [("message", "hi"), ("lat", "abc"), ("lon", "")] (some ()) "id0"
          ⟨true, true, true, true, true, true, "L"⟩ true true ⟨[], []⟩ [] =
        ⟨.ok { user := "alice", message := "hi", url := "L",
               location := { lat := 0, lon := 0 } } "id0", es', bt'⟩) ∧
    handlerSearch "abc" "" "" true ⟨[], []⟩ = .ok (queryByRadius ⟨[], []⟩ 0 0 200) :=
  malformed_coords_default_origin "abc" "" (by simp [parseFloat, parseUnsigned])
    (by simp [parseFloat]) "alice" "hi" "id0" "L" ⟨true, true, true, true, true, true, "L"⟩
    (by simp [saveToGCS]) ⟨[], []⟩ []

/-- C8: the Document Index write and the Wide-Column write are not
transactional: with the index up and the wide-column store down, the
run aborts after the index write, which stays in place (no rollback);
with the index down, the run aborts before either store changes, the
wide-column store untouched — each write fails independently of the
other. -/
theorem fanout_writes_not_transactional
    (username : String) (form : List (String × String)) (id : String) (g : GCSEnv)
    (link : String) (es : ESState) (bt : BTState)
    (hg : saveToGCS g = some link) :
    (∃ p : Post,
      (handlerPost username form (some ()) id g true false es bt).result = .btWriteFailed p id ∧
      (id, p) ∈ (handlerPost username form (some ()) id g true false es bt).es.posts ∧
      (handlerPost username form (some ()) id g true false es bt).bt = bt) ∧
    ((handlerPost username form (some ()) id g false true es bt).result = .esWriteFailed ∧
      (handlerPost username form (some ()) id g false true es bt).es = es ∧
      (handlerPost username form (some ()) id g false true es bt).bt = bt) := by
  constructor
  · rw [handlerPost_btFail_eq username form id g es bt link hg]
    exact ⟨_, rfl, List.mem_cons_self _ _, rfl⟩
  · refine ⟨?_, ?_, ?_⟩ <;> simp [handlerPost, hg, saveToES]

/-- Witness for C8 at a concrete environment. -/
theorem fanout_writes_not_transactional_witness :
    (∃ p : Post,
      (handlerPost "alice" [("message", "hi")] (some ()) "id0"
          ⟨true, true, true, true, true, true, "L"⟩ true false ⟨[], []⟩ []).result =
        .btWriteFailed p "id0" ∧
      ("id0", p) ∈ (handlerPost "alice" [("message", "hi")] (some ()) "id0"
          ⟨true, true, true, true, true, true, "L"⟩ true false ⟨[], []⟩ []).es.posts ∧
      (handlerPost "alice" [("message", "hi")] (some ()) "id0"
          ⟨true, true, true, true, true, true, "L"⟩ true false ⟨[], []⟩ []).bt = []) ∧
    ((handlerPost "alice" [("message", "hi")] (some ()) "id0"
          ⟨true, true, true, true, true, true, "L"⟩ false true ⟨[], []⟩ []).result =
        .esWriteFailed ∧
      (handlerPost "alice" [("message", "hi")] (some ()) "id0"
          ⟨true, true, true, true, true, true, "L"⟩ false true ⟨[], []⟩ []).es = ⟨[], []⟩ ∧
      (handlerPost "alice" [("message", "hi")] (some ()) "id0"
          ⟨true, true, true, true, true, true, "L"⟩ false true ⟨[], []⟩ []).bt = []) :=
  fanout_writes_not_transactional "alice" [("message", "hi")] "id0"
    ⟨true, true, true, true, true, true, "L"⟩ "L" ⟨[], []⟩ [] (by simp [saveToGCS])

/-- C10: every successful submission stores, in both fan-out stores, a
record whose author is exactly the `username` claim of the verified
bearer token; no form field can set or alter the author, so any two
successful runs with the same token subject (whatever their form
fields) store the same author. -/
theorem post_author_is_token_subject
    (username : String) (form : List (String × String)) (image : Option Unit) (id : String)
    (g : GCSEnv) (esOk btOk : Bool) (es : ESState) (bt : BTState) (p : Post) (rid : String)
    (h : (handlerPost username form image id g esOk btOk es bt).result = .ok p rid) :
    p.user = username ∧
    (rid, p) ∈ (handlerPost username form image id g esOk btOk es bt).es.posts ∧
    (∃ row : BTRow, (rid, row) ∈ (handlerPost username form image id g esOk btOk es bt).bt ∧
      row.user = username) ∧
    (∀ (form2 : List (String × String)) (image2 : Option Unit) (id2 : String) (g2 : GCSEnv)
        (es2 : ESState) (bt2 : BTState) (p2 : Post) (rid2 : String),
      (handlerPost username form2 image2 id2 g2 esOk btOk es2 bt2).result = .ok p2 rid2 →
      p2.user = p.user) := by
  obtain ⟨hrid, huser, hmem, hbtmem⟩ :=
    handlerPost_ok_inv username form image id g esOk btOk es bt p rid h
  subst hrid
  refine ⟨huser, hmem, ⟨_, hbtmem, rfl⟩, ?_⟩
  intro form2 image2 id2 g2 es2 bt2 p2 rid2 h2
  obtain ⟨_, huser2, _, _⟩ :=
    handlerPost_ok_inv username form2 image2 id2 g2 esOk btOk es2 bt2 p2 rid2 h2
  rw [huser2, huser]

/-- Witness for C10: a successful run whose form even carries a bogus
`user` field still stores the token subject as author. -/
theorem post_author_is_token_subject_witness :
    ({ user := "alice", message := "hi", url := "L",
       location := { lat := 0, lon := 0 } } : Post).user = "alice" ∧
    ("id0", ({ user := "alice", message := "hi", url := "L",
               location := { lat := 0, lon := 0 } } : Post)) ∈
      (handlerPost "alice" [("message", "hi"), ("user", "mallory")] (some ()) "id0"
        ⟨true, true, true, true, true, true, "L"⟩ true true ⟨[], []⟩ []).es.posts ∧
    (∃ row : BTRow, ("id0", row) ∈ (handlerPost "alice" [("message", "hi"), ("user", "mallory")]
        (some ()) "id0" ⟨true, true, true, true, true, true, "L"⟩ true true ⟨[], []⟩ []).bt ∧
      row.user = "alice") ∧
    (∀ (form2 : List (String × String)) (image2 : Option Unit) (id2 : String) (g2 : GCSEnv)
        (es2 : ESState) (bt2 : BTState) (p2 : Post) (rid2 : String),
      (handlerPost "alice" form2 image2 id2 g2 true true es2 bt2).result = .ok p2 rid2 →
      p2.user = ({ user := "alice", message := "hi", url := "L",
                   location := { lat := 0, lon := 0 } } : Post).user) :=
  post_author_is_token_subject "alice" [("message", "hi"), ("user", "mallory")] (some ()) "id0"
    ⟨true, true, true, true, true, true, "L"⟩ true true ⟨[], []⟩ []
    { user := "alice", message := "hi", url := "L", location := { lat := 0, lon := 0 } } "id0"
    (by simp [handlerPost, formValue, parseFloat, saveToGCS, saveToES, saveToBigTable])

end Around
